import Mathlib

/-!
Shallow embedding of the `rocktree-decode` crate
(`src/rust/crates/rocktree-decode/src/*.rs`) and verification of the
frozen claims about it.

Every decode function in the crate is currently a stub whose body returns
a constant `Ok` value (each carries a source comment of the form
"Stub - will be implemented in Commit N"). The definitions below embed
those bodies exactly as written; byte slices become `List Byte`
(`Byte := Nat`), Rust `&mut [Vertex]` parameters become an explicit
vertex-list argument returned alongside the result, and `f32`/`f64`
scalars become `Float`.
-/

namespace RocktreeDecode

/-- One byte of packed wire data, modelled as a natural number
(arithmetic would be taken mod 256 where the format wraps). -/
abbrev Byte := Nat

/-- Packed vertex record from `lib.rs`: 8-bit `x`, `y`, `z` position
components, 8-bit octant mask `w`, 16-bit texture coordinates `u`, `v`. -/
structure Vertex where
  x : Nat
  y : Nat
  z : Nat
  w : Nat
  u : Nat
  v : Nat
deriving DecidableEq, Repr

/-- Modelled from the spec: the error kinds of the crate's error module
(`error.rs` is declared by `lib.rs` but its source is not present):
`InvalidLength`, `Truncated`, `Malformed`. -/
inductive DecodeError where
  | InvalidLength
  | Truncated
  | Malformed
deriving DecidableEq, Repr

/-- `DecodeResult<T>` from the crate's error module. -/
abbrev DecodeResult (α : Type) := Except DecodeError α

/-- Two-component `f32` vector (`glam::Vec2`). -/
structure Vec2 where
  x : Float
  y : Float

/-- `glam::Vec2::default()` is the zero vector. -/
def Vec2.zero : Vec2 := ⟨0, 0⟩

/-- `UvTransform` from `lib.rs`: UV offset and scale; `default()` zeroes
both fields. -/
structure UvTransform where
  offset : Vec2
  scale : Vec2

/-- `UvTransform::default()`: both fields zero. -/
def UvTransform.default : UvTransform := ⟨Vec2.zero, Vec2.zero⟩

/-- Three-component `f64` vector (`glam::DVec3`). -/
structure DVec3 where
  x : Float
  y : Float
  z : Float

/-- `glam::DVec3::ZERO`. -/
def DVec3.ZERO : DVec3 := ⟨0, 0, 0⟩

/-- Three-by-three `f64` matrix (`glam::DMat3`), stored as three column
axes. -/
structure DMat3 where
  xAxis : DVec3
  yAxis : DVec3
  zAxis : DVec3

/-- `glam::DMat3::IDENTITY`. -/
def DMat3.IDENTITY : DMat3 := ⟨⟨1, 0, 0⟩, ⟨0, 1, 0⟩, ⟨0, 0, 1⟩⟩

/-- Three-component `f32` vector (`glam::Vec3`), used for the
`head_node_center` parameter. -/
structure Vec3 where
  x : Float
  y : Float
  z : Float

/-- `OrientedBoundingBox` from `lib.rs`: center, extents and a rotation. -/
structure OrientedBoundingBox where
  center : DVec3
  extents : DVec3
  orientation : DMat3

/-- `PathAndFlags` from `lib.rs`: octant path string, flags bitmask and
path level. -/
structure PathAndFlags where
  path : String
  flags : Nat
  level : Nat
deriving DecidableEq, Repr

/-- `unpack_vertices` from `vertices.rs`. The body is the stub
`Ok(Vec::new())`: it ignores `packed` and returns an empty vertex list. -/
def unpack_vertices (_packed : List Byte) : DecodeResult (List Vertex) :=
  Except.ok []

/-- `unpack_indices` from `indices.rs`. The body is the stub
`Ok(Vec::new())`: it ignores `packed` and returns an empty index list. -/
def unpack_indices (_packed : List Byte) : DecodeResult (List Nat) :=
  Except.ok []

/-- `unpack_tex_coords` from `texcoords.rs`. The Rust function takes
`&mut [Vertex]`; the embedding returns the result paired with the final
state of that slice. The stub body is `Ok(UvTransform::default())` and
never writes to the slice, so the slice is returned unchanged. -/
def unpack_tex_coords (_packed : List Byte) (vertices : List Vertex) :
    DecodeResult UvTransform × List Vertex :=
  (Except.ok UvTransform.default, vertices)

/-- `unpack_obb` from `obb.rs`. The body is the stub returning
`Ok(OrientedBoundingBox { center: DVec3::ZERO, extents: DVec3::ZERO,
orientation: DMat3::IDENTITY })` regardless of the three arguments. -/
def unpack_obb (_packed : List Byte) (_head_node_center : Vec3)
    (_meters_per_texel : Float) : DecodeResult OrientedBoundingBox :=
  Except.ok ⟨DVec3.ZERO, DVec3.ZERO, DMat3.IDENTITY⟩

/-- `unpack_octant_mask_and_layer_bounds` from `octants.rs`. The Rust
function takes `&mut [Vertex]`; the embedding returns the result paired
with the final state of that slice. The stub body is `Ok([0; 10])` (the
10-entry layer-bounds array, all zero) and never writes to the slice. -/
def unpack_octant_mask_and_layer_bounds (_packed : List Byte)
    (_indices : List Nat) (vertices : List Vertex) :
    DecodeResult (List Nat) × List Vertex :=
  (Except.ok (List.replicate 10 0), vertices)

/-- `unpack_for_normals` from `normals.rs`. The body is the stub
`Ok(Vec::new())`. -/
def unpack_for_normals (_for_normals : List Byte) : DecodeResult (List Byte) :=
  Except.ok []

/-- `unpack_normals` from `normals.rs`. The body is the stub
`Ok(Vec::new())`: it ignores both optional inputs and the vertex count. -/
def unpack_normals (_mesh_normals : Option (List Byte))
    (_for_normals : Option (List Byte)) (_vertex_count : Nat) :
    DecodeResult (List Byte) :=
  Except.ok []

/-- `unpack_path_and_flags` from `path.rs`. The body is the stub returning
`PathAndFlags { path: String::new(), flags: 0, level: 0 }` for every
input. -/
def unpack_path_and_flags (_path_and_flags : Nat) : PathAndFlags :=
  ⟨"", 0, 0⟩

/-- Panic-aware run of `unpack_vertices`: a Rust panic (such as an
unguarded slice index) would embed as the `none` outcome. The body
contains no panicking operation, so the run is `some` of the pure
result. -/
def run_unpack_vertices (packed : List Byte) :
    Option (DecodeResult (List Vertex)) :=
  some (unpack_vertices packed)

/-- Panic-aware run of `unpack_indices` (see `run_unpack_vertices`). -/
def run_unpack_indices (packed : List Byte) :
    Option (DecodeResult (List Nat)) :=
  some (unpack_indices packed)

/-- Panic-aware run of `unpack_tex_coords` (see `run_unpack_vertices`). -/
def run_unpack_tex_coords (packed : List Byte) (vertices : List Vertex) :
    Option (DecodeResult UvTransform × List Vertex) :=
  some (unpack_tex_coords packed vertices)

/-- Panic-aware run of `unpack_obb` (see `run_unpack_vertices`). -/
def run_unpack_obb (packed : List Byte) (c : Vec3) (m : Float) :
    Option (DecodeResult OrientedBoundingBox) :=
  some (unpack_obb packed c m)

/-- Panic-aware run of `unpack_octant_mask_and_layer_bounds`
(see `run_unpack_vertices`). -/
def run_unpack_octant_mask_and_layer_bounds (packed : List Byte)
    (indices : List Nat) (vertices : List Vertex) :
    Option (DecodeResult (List Nat) × List Vertex) :=
  some (unpack_octant_mask_and_layer_bounds packed indices vertices)

/-- Panic-aware run of `unpack_for_normals` (see `run_unpack_vertices`). -/
def run_unpack_for_normals (packed : List Byte) :
    Option (DecodeResult (List Byte)) :=
  some (unpack_for_normals packed)

/-- Panic-aware run of `unpack_normals` (see `run_unpack_vertices`). -/
def run_unpack_normals (mesh_normals : Option (List Byte))
    (for_normals : Option (List Byte)) (vertex_count : Nat) :
    Option (DecodeResult (List Byte)) :=
  some (unpack_normals mesh_normals for_normals vertex_count)

/-- Panic-aware run of `unpack_path_and_flags`
(see `run_unpack_vertices`). -/
def run_unpack_path_and_flags (path_and_flags : Nat) :
    Option PathAndFlags :=
  some (unpack_path_and_flags path_and_flags)

/-- C1: the claim says `unpack_vertices` on a `3*N`-byte input returns `Ok`
with exactly `N` cumulative-sum vertices. On the failing input `[1, 2, 3]`
(so `N = 1`, requiring the single vertex `⟨1, 2, 3, 0, 0, 0⟩`) the code
returns `Ok` with zero vertices, diverging from the claim. -/
theorem unpack_vertices_stub_at_failing_input :
    unpack_vertices [1, 2, 3] = Except.ok [] ∧
    unpack_vertices [1, 2, 3] ≠ Except.ok [⟨1, 2, 3, 0, 0, 0⟩] := by
  exact ⟨rfl, by simp [unpack_vertices]⟩

/-- C2: the claim says `unpack_indices` decodes a well-formed varint stream
to one index per varint; the empty-input half holds (the stub returns
`Ok` of an empty sequence), but on the failing input `[2, 2, 2]` (three
single-byte varints, so the claim requires length 3) the code returns the
empty sequence of length 0, diverging from the claim. -/
theorem unpack_indices_stub_at_failing_input :
    unpack_indices ([] : List Byte) = Except.ok [] ∧
    unpack_indices [2, 2, 2] = Except.ok [] ∧
    ([] : List Nat).length ≠ 3 := by
  exact ⟨rfl, rfl, by decide⟩

/-- C3: the claim says `unpack_path_and_flags` always returns a level in
`{1, 2, 3, 4}` and reports `level = 2`, `flags = 7` on input 1909. The
code returns the constant `⟨"", 0, 0⟩`, so on the failing input 1909 the
level is 0 (outside `{1, 2, 3, 4}`) and the flags are 0, diverging from
the claim. -/
theorem unpack_path_and_flags_stub_at_failing_input :
    unpack_path_and_flags 1909 = ⟨"", 0, 0⟩ ∧
    (unpack_path_and_flags 1909).level ≠ 2 ∧
    (unpack_path_and_flags 1909).flags ≠ 7 := by
  exact ⟨rfl, by decide, by decide⟩

/-- C4: the claim says that whenever `unpack_octant_mask_and_layer_bounds`
returns `Ok`, the 10-entry layer-bounds array is non-decreasing with final
entry equal to the total index count. On the failing input
(`packed = []`, `indices = [5]`, `vertices = []`) the code returns `Ok`
with the all-zero array, whose final entry 0 differs from the index count
1, diverging from the claim. -/
theorem unpack_octant_mask_stub_at_failing_input :
    (unpack_octant_mask_and_layer_bounds [] [5] []).1 =
      Except.ok (List.replicate 10 0) ∧
    (List.replicate 10 (0 : Nat)).getLast? = some 0 ∧
    ([5] : List Nat).length ≠ 0 := by
  exact ⟨rfl, by decide, by decide⟩

/-- C5: the claim says `unpack_vertices` fails with `InvalidLength` on any
input whose length is not a multiple of 3. On the failing input
`[0, 0, 0, 0]` (length 4) the code returns `Ok` with an empty vertex list
instead of the `InvalidLength` error, diverging from the claim. -/
theorem unpack_vertices_stub_accepts_length_four :
    unpack_vertices [0, 0, 0, 0] = Except.ok [] ∧
    unpack_vertices [0, 0, 0, 0] ≠ Except.error DecodeError.InvalidLength := by
  exact ⟨rfl, by simp [unpack_vertices]⟩

/-- C6: the claim says `unpack_obb` fails with `InvalidLength` on any input
whose length is not exactly 15 bytes. On the failing inputs of 14 and 16
zero bytes (with `head_node_center = (0,0,0)` and `meters_per_texel = 1`)
the code returns `Ok` with the constant zero/identity box instead of the
`InvalidLength` error, diverging from the claim. -/
theorem unpack_obb_stub_accepts_wrong_lengths :
    unpack_obb (List.replicate 14 0) ⟨0, 0, 0⟩ 1 =
      Except.ok ⟨DVec3.ZERO, DVec3.ZERO, DMat3.IDENTITY⟩ ∧
    unpack_obb (List.replicate 14 0) ⟨0, 0, 0⟩ 1 ≠
      Except.error DecodeError.InvalidLength ∧
    unpack_obb (List.replicate 16 0) ⟨0, 0, 0⟩ 1 ≠
      Except.error DecodeError.InvalidLength := by
  exact ⟨rfl, by simp [unpack_obb], by simp [unpack_obb]⟩

/-- C7: the claim says `unpack_normals` with either optional input absent
returns `Ok` with a default-filled buffer of exactly `vertex_count * 4`
bytes. On the failing input (`mesh_normals = none`, `for_normals = none`,
`vertex_count = 1`, so the claim requires 4 bytes) the code returns the
empty buffer of length 0, diverging from the claim. -/
theorem unpack_normals_stub_at_failing_input :
    unpack_normals none none 1 = Except.ok [] ∧
    ([] : List Byte).length ≠ 1 * 4 := by
  exact ⟨rfl, by decide⟩

/-- C8: no exported decoder function panics on any input: in the
panic-aware embedding (where a Rust panic, such as an unguarded slice
index, is the `none` outcome) every run of each of the eight exported
functions yields `some` result value. -/
theorem decoders_never_panic :
    ∀ (pv pi pt pb po pfn : List Byte) (c : Vec3) (m : Float)
      (mn fn : Option (List Byte)) (vc paf : Nat)
      (idx : List Nat) (vt vs : List Vertex),
    (run_unpack_vertices pv).isSome = true ∧
    (run_unpack_indices pi).isSome = true ∧
    (run_unpack_tex_coords pt vt).isSome = true ∧
    (run_unpack_obb pb c m).isSome = true ∧
    (run_unpack_octant_mask_and_layer_bounds po idx vs).isSome = true ∧
    (run_unpack_for_normals pfn).isSome = true ∧
    (run_unpack_normals mn fn vc).isSome = true ∧
    (run_unpack_path_and_flags paf).isSome = true := by
  intro pv pi pt pb po pfn c m mn fn vc paf idx vt vs
  exact ⟨rfl, rfl, rfl, rfl, rfl, rfl, rfl, rfl⟩

/-- C9: every exported result-returning decode function returns `Ok` on
every input whatsoever — the error branch is never taken, so no input is
ever rejected as `InvalidLength`, `Truncated` or `Malformed`. Each stub
body returns its constant `Ok` value unconditionally. -/
theorem decoders_always_return_ok :
    ∀ (pv pi pt pb po pfn : List Byte) (c : Vec3) (m : Float)
      (mn fn : Option (List Byte)) (vc : Nat)
      (idx : List Nat) (vt vs : List Vertex),
    unpack_vertices pv = Except.ok [] ∧
    unpack_indices pi = Except.ok [] ∧
    (unpack_tex_coords pt vt).1 = Except.ok UvTransform.default ∧
    unpack_obb pb c m =
      Except.ok ⟨DVec3.ZERO, DVec3.ZERO, DMat3.IDENTITY⟩ ∧
    (unpack_octant_mask_and_layer_bounds po idx vs).1 =
      Except.ok (List.replicate 10 0) ∧
    unpack_for_normals pfn = Except.ok [] ∧
    unpack_normals mn fn vc = Except.ok [] := by
  intro pv pi pt pb po pfn c m mn fn vc idx vt vs
  exact ⟨rfl, rfl, rfl, rfl, rfl, rfl, rfl⟩

/-- C10: for every input byte slice, index sequence and vertex buffer,
`unpack_tex_coords` and `unpack_octant_mask_and_layer_bounds` leave every
element of the supplied mutable vertex slice unchanged — the `u`, `v` and
`w` fields the pipeline is documented to assign are never written. -/
theorem vertex_slice_left_unchanged :
    ∀ (pt po : List Byte) (idx : List Nat) (vt vs : List Vertex),
    (unpack_tex_coords pt vt).2 = vt ∧
    (unpack_octant_mask_and_layer_bounds po idx vs).2 = vs := by
  intro pt po idx vt vs
  exact ⟨rfl, rfl⟩

end RocktreeDecode
